import Mathlib

/-!
Verification of the prefab-gateway service against its specification.

The definitions below are a shallow embedding of the Python sources:
  * `src/services/encryption.py`   — `EncryptionService`
  * `src/services/vault_service.py` — `VaultService`
  * `src/services/spec_cache_service.py` — `SpecCacheService`
  * `src/app/routers/run.py`       — the `/v1/run` execution pipeline
  * `src/app/routers/webhooks.py`  — the factory webhook handler
Database tables are modelled as Lean lists of records; SQLAlchemy's
`scalar_one_or_none` on a unique index is modelled as `List.find?`
(first match), and updates as a `List.map` over key-matching rows.
-/

set_option autoImplicit false

namespace PrefabGateway

/-- Secret lifecycle status, from `src/db/models.py` (`SecretStatus`). -/
inductive SecretStatus where
  | ACTIVE
  | DISABLED
  | EXPIRED
deriving DecidableEq

/-- Deployment lifecycle status, from `src/db/models.py` (`DeploymentStatus`). -/
inductive DeploymentStatus where
  | PENDING
  | BUILDING
  | DEPLOYING
  | DEPLOYED
  | FAILED
deriving DecidableEq

/-- Interface of the symmetric authenticated cipher used by
`EncryptionService` (`cryptography.fernet.Fernet`, an external library).
A Fernet token is never empty and never equals the plaintext (it is a
versioned, base64-encoded ciphertext+MAC), and decryption under the
same key inverts encryption. -/
structure Cipher where
  enc : String → String
  dec : String → String
  dec_enc : ∀ s, dec (enc s) = s
  enc_nonempty : ∀ s, enc s ≠ ""
  enc_ne_self : ∀ s, enc s ≠ s

/-- A concrete cipher satisfying the `Cipher` interface, used to
evaluate the development on closed inputs: prepend a marker character. -/
def demoCipher : Cipher where
  enc s := String.mk ('E' :: s.data)
  dec s := String.mk s.data.tail
  dec_enc s := rfl
  enc_nonempty s h := by
    have h2 : 'E' :: s.data = ([] : List Char) := congrArg String.data h
    exact List.cons_ne_nil _ _ h2
  enc_ne_self s h := by
    have h2 : ('E' :: s.data).length = s.data.length :=
      congrArg (fun t => t.data.length) h
    simp only [List.length_cons] at h2
    omega

/-- `EncryptionService.encrypt` (`src/services/encryption.py:20-34`):
`if not plaintext: return ""` — an empty (falsy) plaintext short-circuits
and is returned unencrypted; otherwise the Fernet token is returned. -/
def EncryptionService.encrypt (c : Cipher) (plaintext : String) : String :=
  if plaintext = "" then "" else c.enc plaintext

/-- `EncryptionService.decrypt` (`src/services/encryption.py:36-50`):
empty input short-circuits to `""`, otherwise the token is decrypted. -/
def EncryptionService.decrypt (c : Cipher) (encrypted_text : String) : String :=
  if encrypted_text = "" then "" else c.dec encrypted_text

/-- A row of the `user_secrets` table (`src/db/models.py`, `UserSecret`).
Timestamps are abstract `Nat` instants; server-side column defaults are
not modelled (`none` until the application writes the field). -/
structure UserSecret where
  user_id : String
  prefab_id : String
  secret_name : String
  secret_value : String
  status : SecretStatus
  description : Option String
  updated_at : Option Nat
  last_used_at : Option Nat
deriving DecidableEq

/-- The `(user_id, prefab_id, secret_name)` lookup used by every vault
query; the table's unique index `idx_user_prefab_secret` guarantees at
most one matching row. -/
def secretKeyMatch (user_id prefab_id secret_name : String) (r : UserSecret) : Bool :=
  r.user_id == user_id && r.prefab_id == prefab_id && r.secret_name == secret_name

/-- Lookup filter of `VaultService.get_secret`: key match plus
`status == ACTIVE`. -/
def activeKeyMatch (user_id prefab_id secret_name : String) (r : UserSecret) : Bool :=
  secretKeyMatch user_id prefab_id secret_name r && r.status == SecretStatus.ACTIVE

/-- Python truthiness of an optional string (`if description:` /
`if knative_service_url:`): `None` and `""` are falsy. -/
def truthyOpt : Option String → Bool
  | none => false
  | some s => s != ""

/-- The in-place mutation `store_secret` performs on an existing row
(`src/services/vault_service.py:63-70`): new encrypted value, refreshed
`updated_at`, status forced back to ACTIVE, description overwritten only
when truthy. -/
def storeUpdateRow (encrypted_value : String) (description : Option String) (now : Nat)
    (r : UserSecret) : UserSecret :=
  { r with secret_value := encrypted_value,
           updated_at := some now,
           status := SecretStatus.ACTIVE,
           description := if truthyOpt description then description else r.description }

/-- The fresh row `store_secret` inserts when no row exists for the key
(`src/services/vault_service.py:71-82`). -/
def newSecretRow (user_id prefab_id secret_name encrypted_value : String)
    (description : Option String) : UserSecret :=
  { user_id := user_id, prefab_id := prefab_id, secret_name := secret_name,
    secret_value := encrypted_value, status := SecretStatus.ACTIVE,
    description := description, updated_at := none, last_used_at := none }

/-- `VaultService.store_secret` (`src/services/vault_service.py:29-84`):
encrypt the value, then upsert the row for the key. -/
def VaultService.store_secret (c : Cipher) (user_id prefab_id secret_name secret_value : String)
    (description : Option String) (now : Nat) (db : List UserSecret) : List UserSecret :=
  let encrypted_value := EncryptionService.encrypt c secret_value
  match db.find? (secretKeyMatch user_id prefab_id secret_name) with
  | some _ =>
      db.map fun r =>
        if secretKeyMatch user_id prefab_id secret_name r then
          storeUpdateRow encrypted_value description now r
        else r
  | none =>
      db ++ [newSecretRow user_id prefab_id secret_name encrypted_value description]

/-- The `last_used_at` touch `get_secret` performs on the fetched row
(`src/services/vault_service.py:117-119`). -/
def touchLastUsed (now : Nat) (r : UserSecret) : UserSecret :=
  { r with last_used_at := some now }

/-- `VaultService.get_secret` (`src/services/vault_service.py:86-127`):
fetch the ACTIVE row for the key, update `last_used_at`, decrypt and
return the plaintext; absence returns `None`. Returns the value together
with the updated table. -/
def VaultService.get_secret (c : Cipher) (user_id prefab_id secret_name : String)
    (now : Nat) (db : List UserSecret) : Option String × List UserSecret :=
  match db.find? (activeKeyMatch user_id prefab_id secret_name) with
  | some record =>
      (some (EncryptionService.decrypt c record.secret_value),
       db.map fun r =>
         if activeKeyMatch user_id prefab_id secret_name r then touchLastUsed now r
         else r)
  | none => (none, db)

/-! ## Spec cache (`src/services/spec_cache_service.py`) -/

/-- A declared secret of a prefab function (manifest `secrets` entry);
`required` carries the JSON default `True` applied by
`secret.get("required", True)`. -/
structure SecretDef where
  name : String
  required : Bool
deriving DecidableEq

/-- A declared parameter of a prefab function (manifest `parameters`
entry); `type` carries the default `"string"` and `required` the
default `True` applied by the `.get` calls in `run.py`. -/
structure ParamDef where
  name : String
  type : String
  required : Bool
deriving DecidableEq

/-- A function entry of a prefab manifest; `returns` lists the
`returns.properties` entries as (field name, declared type). -/
structure FunctionDef where
  name : String
  parameters : List ParamDef
  secrets : List SecretDef
  returns : List (String × String)
deriving DecidableEq

/-- A prefab manifest (`spec_json`): the parts the gateway reads. -/
structure Spec where
  functions : List FunctionDef
deriving DecidableEq

/-- A row of the `prefab_specs` table (`src/db/models.py`, `PrefabSpec`). -/
structure PrefabSpecRec where
  prefab_id : String
  version : String
  spec_json : Spec
  knative_service_url : Option String
  deployment_status : DeploymentStatus
  artifact_url : Option String
  deployed_at : Option Nat
  updated_at : Option Nat
  call_count : Nat
  last_called_at : Option Nat
deriving DecidableEq

/-- The `(prefab_id, version)` lookup used on `prefab_specs`; the unique
index `idx_prefab_version` guarantees at most one matching row. -/
def specKeyMatch (prefab_id version : String) (r : PrefabSpecRec) : Bool :=
  r.prefab_id == prefab_id && r.version == version

/-- State of the two-tier cache: Tier-1 is the Redis / in-memory map of
cache key to cached `spec_json` (TTL expiry is modelled by an entry
simply being absent), Tier-2 is the durable `prefab_specs` table. -/
structure SpecCacheState where
  tier1 : List (String × Spec)
  tier2 : List PrefabSpecRec
deriving DecidableEq

/-- Tier-1 read (`redis.get` / `_memory_cache.get`). -/
def alistGet (l : List (String × Spec)) (key : String) : Option Spec :=
  (l.find? (fun kv => kv.1 == key)).map Prod.snd

/-- Tier-1 write (`redis.setex` / `_memory_cache[key] = spec`). -/
def alistSet (l : List (String × Spec)) (key : String) (v : Spec) : List (String × Spec) :=
  (key, v) :: l.filter (fun kv => kv.1 != key)

/-- Tier-1 delete (`redis.delete` / `_memory_cache.pop`). -/
def alistErase (l : List (String × Spec)) (key : String) : List (String × Spec) :=
  l.filter (fun kv => kv.1 != key)

/-- `SpecCacheService._make_key` (`src/services/spec_cache_service.py:60-62`). -/
def SpecCacheService.make_key (prefab_id version : String) : String :=
  "spec:" ++ prefab_id ++ ":" ++ version

/-- The usage-counter update `get_spec` applies on a Tier-2 hit
(`src/services/spec_cache_service.py:116-119`). -/
def specStatsTouch (now : Nat) (r : PrefabSpecRec) : PrefabSpecRec :=
  { r with last_called_at := some now, call_count := r.call_count + 1 }

/-- State after a Tier-2 hit in `get_spec`: usage counters bumped and
the spec written through into Tier-1
(`src/services/spec_cache_service.py:112-124`). -/
def specWriteThrough (key : String) (record : PrefabSpecRec) (prefab_id version : String)
    (now : Nat) (st : SpecCacheState) : SpecCacheState :=
  { tier1 := alistSet st.tier1 key record.spec_json,
    tier2 := st.tier2.map fun r =>
      if specKeyMatch prefab_id version r then specStatsTouch now r else r }

/-- `SpecCacheService.get_spec` (`src/services/spec_cache_service.py:64-131`):
try Tier-1; on miss read Tier-2, bump usage counters and write through
into Tier-1; total miss is `None`, not an error. -/
def SpecCacheService.get_spec (st : SpecCacheState) (prefab_id version : String)
    (now : Nat) : Option Spec × SpecCacheState :=
  let key := SpecCacheService.make_key prefab_id version
  match alistGet st.tier1 key with
  | some spec => (some spec, st)
  | none =>
    match st.tier2.find? (specKeyMatch prefab_id version) with
    | some record =>
        (some record.spec_json, specWriteThrough key record prefab_id version now st)
    | none => (none, st)

/-- The row mutation of `update_deployment_status`
(`src/services/spec_cache_service.py:306-312`): set the status, refresh
`updated_at`, record the service URL only when truthy, and stamp
`deployed_at` when the new status is DEPLOYED. -/
def statusUpdateRow (status : DeploymentStatus) (url : Option String) (now : Nat)
    (r : PrefabSpecRec) : PrefabSpecRec :=
  { r with deployment_status := status,
           updated_at := some now,
           knative_service_url := if truthyOpt url then url else r.knative_service_url,
           deployed_at := if status = DeploymentStatus.DEPLOYED then some now else r.deployed_at }

/-- State after a successful `update_deployment_status`: Tier-2 row
updated, then the Tier-1 entry for the key deleted
(`src/services/spec_cache_service.py:306-325`). -/
def afterStatusUpdate (prefab_id version : String) (status : DeploymentStatus)
    (url : Option String) (now : Nat) (st : SpecCacheState) : SpecCacheState :=
  { tier1 := alistErase st.tier1 (SpecCacheService.make_key prefab_id version),
    tier2 := st.tier2.map fun r =>
      if specKeyMatch prefab_id version r then statusUpdateRow status url now r else r }

/-- `SpecCacheService.update_deployment_status`
(`src/services/spec_cache_service.py:275-333`): update the Tier-2 row
when it exists (returning `True`) and invalidate the Tier-1 entry;
return `False` when no row exists. -/
def SpecCacheService.update_deployment_status (st : SpecCacheState) (prefab_id version : String)
    (status : DeploymentStatus) (url : Option String) (now : Nat) : Bool × SpecCacheState :=
  match st.tier2.find? (specKeyMatch prefab_id version) with
  | some _ => (true, afterStatusUpdate prefab_id version status url now st)
  | none => (false, st)

/-! ## Factory webhook handler (`src/app/routers/webhooks.py`) -/

/-- The fields of a factory webhook payload that the handler reads via
`payload.get(...)` (`src/app/routers/webhooks.py:96-101`); each may be
absent. -/
structure WebhookPayload where
  event_id : Option String
  event_type : Option String
  prefab_id : Option String
  version : Option String
  knative_service_url : Option String
deriving DecidableEq

/-- A row of the `webhook_events` table (`src/db/models.py`,
`WebhookEvent`). The column `processed_at` is a plain nullable DateTime
with no default and no `onupdate`. -/
structure WebhookEventRec where
  event_id : String
  source : String
  event_type : String
  prefab_id : String
  version : String
  payload : WebhookPayload
  processed : Bool
  processed_at : Option Nat
  processing_error : Option String
  retry_count : Nat
  signature : Option String
deriving DecidableEq

/-- The persistent state the webhook handler touches: the
`webhook_events` table and the spec cache (both tiers). -/
structure GatewayState where
  events : List WebhookEventRec
  cache : SpecCacheState
deriving DecidableEq

/-- Responses of the webhook endpoint: a raised `HTTPException`
(400/401/500) or one of the two success dictionaries. -/
inductive WebhookResponse where
  | httpError (code : Nat) (detail : String)
  | alreadyProcessed (event_id : String)
  | processed (event_id event_type prefab_id version : String)
deriving DecidableEq

/-- The fresh event row created on first receipt
(`src/app/routers/webhooks.py:131-139`): `processed` defaults to false,
`retry_count` to 0. -/
def newWebhookEvent (event_id event_type prefab_id version : String) (p : WebhookPayload)
    (signature : Option String) : WebhookEventRec :=
  { event_id := event_id, source := "factory", event_type := event_type,
    prefab_id := prefab_id, version := version, payload := p,
    processed := false, processed_at := none, processing_error := none,
    retry_count := 0, signature := signature }

/-- The mutation applied to the event row when processing raises
(`src/app/routers/webhooks.py:197-198`): record the error text and
increment `retry_count`; `processed` is not touched. -/
def eventErrorRow (msg : String) (e : WebhookEventRec) : WebhookEventRec :=
  { e with processing_error := some msg, retry_count := e.retry_count + 1 }

/-- The mutation applied to the event row on successful processing
(`src/app/routers/webhooks.py:183-184`): `processed = True` and
`processed_at = None`. The source comment says SQLAlchemy will fill
`processed_at`, but the column (`src/db/models.py:138`) has no default
and no `onupdate`, so the value stays NULL. -/
def eventMarkProcessed (e : WebhookEventRec) : WebhookEventRec :=
  { e with processed := true, processed_at := none }

/-- The deployment-status dispatch of the handler
(`src/app/routers/webhooks.py:146-181`): the three known event types map
to DEPLOYED (with the service URL), FAILED and DEPLOYING; any other
event type performs no update. -/
def applyDeploymentEvent (event_type prefab_id version : String) (url : Option String)
    (now : Nat) (cache : SpecCacheState) : SpecCacheState :=
  if event_type = "deployment.success" then
    (SpecCacheService.update_deployment_status cache prefab_id version
      DeploymentStatus.DEPLOYED url now).2
  else if event_type = "deployment.failed" then
    (SpecCacheService.update_deployment_status cache prefab_id version
      DeploymentStatus.FAILED none now).2
  else if event_type = "deployment.started" then
    (SpecCacheService.update_deployment_status cache prefab_id version
      DeploymentStatus.DEPLOYING none now).2
  else cache

/-- Apply `eventErrorRow` to the row with the given `event_id`. -/
def recordEventError (event_id msg : String) (st : GatewayState) : GatewayState :=
  { st with events := st.events.map fun e =>
      if e.event_id == event_id then eventErrorRow msg e else e }

/-- Apply `eventMarkProcessed` to the row with the given `event_id`. -/
def markEventProcessed (event_id : String) (st : GatewayState) : GatewayState :=
  { st with events := st.events.map fun e =>
      if e.event_id == event_id then eventMarkProcessed e else e }

/-- Append a freshly created event row (`db.add` + commit,
`src/app/routers/webhooks.py:140-143`). -/
def insertEvent (x : WebhookEventRec) (st : GatewayState) : GatewayState :=
  { st with events := st.events ++ [x] }

/-- The `try`/`except` processing block
(`src/app/routers/webhooks.py:145-204`). `raised` is an oracle for an
exception surfacing from the shared database session during the block
(before the row is marked processed), carrying the exception text;
`update_deployment_status` itself catches its own errors, so the
happy path applies the dispatch and then marks the row processed. -/
def processWebhookEvent (event_id event_type prefab_id version : String) (url : Option String)
    (raised : Option String) (now : Nat) (st : GatewayState) : WebhookResponse × GatewayState :=
  match raised with
  | some msg =>
      (WebhookResponse.httpError 500 ("Failed to process webhook: " ++ msg),
       recordEventError event_id msg st)
  | none =>
      let cache' := applyDeploymentEvent event_type prefab_id version url now st.cache
      (WebhookResponse.processed event_id event_type prefab_id version,
       markEventProcessed event_id { st with cache := cache' })

/-- `receive_factory_webhook` (`src/app/routers/webhooks.py:96-204`),
modelled from the point where the body has been parsed and the
signature (when configured) has been verified: required-field check,
idempotency lookup by `event_id`, row creation on first receipt, then
the processing block. -/
def receive_factory_webhook (p : WebhookPayload) (signature : Option String)
    (raised : Option String) (now : Nat) (st : GatewayState) :
    WebhookResponse × GatewayState :=
  if ¬ (truthyOpt p.event_id && truthyOpt p.event_type &&
        truthyOpt p.prefab_id && truthyOpt p.version) then
    (WebhookResponse.httpError 400
      "Missing required fields: event_id, event_type, prefab_id, version", st)
  else
    let event_id := p.event_id.getD ""
    let event_type := p.event_type.getD ""
    let prefab_id := p.prefab_id.getD ""
    let version := p.version.getD ""
    match st.events.find? (fun e => e.event_id == event_id) with
    | some existing =>
        if existing.processed then
          (WebhookResponse.alreadyProcessed event_id, st)
        else
          processWebhookEvent event_id event_type prefab_id version
            p.knative_service_url raised now st
    | none =>
        processWebhookEvent event_id event_type prefab_id version
          p.knative_service_url raised now
          (insertEvent (newWebhookEvent event_id event_type prefab_id version p signature) st)

/-- Demo manifest function: one string parameter, one required secret. -/
def demoFunctionDef : FunctionDef :=
  { name := "get_current_weather",
    parameters := [{ name := "city", type := "string", required := true }],
    secrets := [{ name := "API_KEY", required := true }],
    returns := [] }

/-- Demo manifest. -/
def demoSpecManifest : Spec :=
  { functions := [demoFunctionDef] }

/-- Demo Tier-2 row for `(weather-api-v1, 1.0.0)`. -/
def demoSpecRec : PrefabSpecRec :=
  { prefab_id := "weather-api-v1", version := "1.0.0", spec_json := demoSpecManifest,
    knative_service_url := none, deployment_status := DeploymentStatus.DEPLOYING,
    artifact_url := none, deployed_at := none, updated_at := none,
    call_count := 0, last_called_at := none }

/-- Demo `deployment.success` payload. -/
def demoPayload : WebhookPayload :=
  { event_id := some "deploy-123", event_type := some "deployment.success",
    prefab_id := some "weather-api-v1", version := some "1.0.0",
    knative_service_url := some "http://weather-api-v1.prefab.svc.cluster.local" }

/-- Demo event row already marked processed. -/
def demoProcessedEvent : WebhookEventRec :=
  { event_id := "deploy-123", source := "factory", event_type := "deployment.success",
    prefab_id := "weather-api-v1", version := "1.0.0", payload := demoPayload,
    processed := true, processed_at := none, processing_error := none,
    retry_count := 0, signature := none }

/-- Demo gateway state holding the processed event and the demo spec. -/
def demoWebhookState : GatewayState :=
  { events := [demoProcessedEvent], cache := { tier1 := [], tier2 := [demoSpecRec] } }

/-- Demo unprocessed event row (one earlier failed attempt recorded). -/
def demoUnprocessedEvent : WebhookEventRec :=
  { event_id := "deploy-123", source := "factory", event_type := "deployment.success",
    prefab_id := "weather-api-v1", version := "1.0.0", payload := demoPayload,
    processed := false, processed_at := none, processing_error := some "db down",
    retry_count := 1, signature := none }

/-- Demo gateway state holding the unprocessed event. -/
def demoRetryState : GatewayState :=
  { events := [demoUnprocessedEvent], cache := { tier1 := [], tier2 := [demoSpecRec] } }

/-- Demo gateway state with no prior events. -/
def demoFreshState : GatewayState :=
  { events := [], cache := { tier1 := [], tier2 := [demoSpecRec] } }

/-- Demo payload with an unrecognized event type. -/
def demoUnknownPayload : WebhookPayload :=
  { event_id := some "evt-9", event_type := some "deployment.unknown",
    prefab_id := some "weather-api-v1", version := some "1.0.0",
    knative_service_url := none }

/-! ## The /v1/run execution pipeline (`src/app/routers/run.py`) -/

/-- Runtime values of call inputs/outputs (Python JSON values). `float`
values are abstracted to an opaque tag: no claim depends on float
arithmetic. -/
inductive PyVal where
  | str (s : String)
  | int (n : Int)
  | float (tag : Nat)
  | bool (b : Bool)
  | list (elems : List PyVal)
  | dict (fields : List (String × PyVal))

/-- `isinstance(v, str)`. -/
def isInstanceString : PyVal → Bool
  | PyVal.str _ => true
  | _ => false

/-- `isinstance(v, (int, float))`: Python `bool` is a subclass of `int`,
so booleans pass this check. -/
def isInstanceNumber : PyVal → Bool
  | PyVal.int _ => true
  | PyVal.float _ => true
  | PyVal.bool _ => true
  | _ => false

/-- `isinstance(v, int)`: Python `bool` is a subclass of `int`. -/
def isInstanceInt : PyVal → Bool
  | PyVal.int _ => true
  | PyVal.bool _ => true
  | _ => false

/-- `isinstance(v, bool)`. -/
def isInstanceBool : PyVal → Bool
  | PyVal.bool _ => true
  | _ => false

/-- `isinstance(v, list)`. -/
def isInstanceList : PyVal → Bool
  | PyVal.list _ => true
  | _ => false

/-- `isinstance(v, dict)`. -/
def isInstanceDict : PyVal → Bool
  | PyVal.dict _ => true
  | _ => false

/-- The `type_check_map` of `validate_inputs` (`src/app/routers/run.py:161-170`):
types outside the map (including `InputFile`) have no runtime check. -/
def typeCheckOk (param_type : String) (v : PyVal) : Bool :=
  if param_type = "string" then isInstanceString v
  else if param_type = "number" then isInstanceNumber v
  else if param_type = "integer" then isInstanceInt v
  else if param_type = "boolean" then isInstanceBool v
  else if param_type = "array" then isInstanceList v
  else if param_type = "object" then isInstanceDict v
  else true

/-- Python dict read (`inputs.get(name)` / `name in inputs`), first
match on the key. -/
def pyDictGet (d : List (String × PyVal)) (k : String) : Option PyVal :=
  (d.find? (fun kv => kv.1 == k)).map Prod.snd

/-- An HTTPException raised inside the pipeline: status code plus
detail string. -/
structure HttpError where
  status_code : Nat
  detail : String
deriving DecidableEq

/-- The check `validate_inputs` performs for one declared parameter
(`src/app/routers/run.py:146-175`): required-but-absent is a 422, a
present value failing the type map is a 422. -/
def paramError (inputs : List (String × PyVal)) (param : ParamDef) : Option HttpError :=
  if param.required && (pyDictGet inputs param.name).isNone then
    some ⟨422, "Missing required parameter: " ++ param.name⟩
  else
    match pyDictGet inputs param.name with
    | some v =>
        if typeCheckOk param.type v then none
        else some ⟨422, "Type mismatch for parameter " ++ param.name ++
          ": expected " ++ param.type⟩
    | none => none

/-- `validate_inputs` (`src/app/routers/run.py:138-175`): parameters are
checked in declaration order and the first failure is raised. -/
def validate_inputs (inputs : List (String × PyVal)) (function_def : FunctionDef) :
    Option HttpError :=
  function_def.parameters.findSome? (paramError inputs)

/-- The ACL ledger (`src/services/acl_service.py`): per-user set of
readable S3 URIs, modelled as an association list of duplicate-free
lists. -/
def aclFiles (acl : List (String × List String)) (user_id : String) : List String :=
  ((acl.find? (fun kv => kv.1 == user_id)).map Prod.snd).getD []

/-- `AccessControlService.can_read` (`src/services/acl_service.py:26-45`):
membership of the value in the user's set of URI strings; a non-string
value is never a member of a set of strings. -/
def AccessControlService.can_read (acl : List (String × List String)) (user_id : String)
    (v : PyVal) : Bool :=
  match v with
  | PyVal.str s => (aclFiles acl user_id).contains s
  | _ => false

/-- `AccessControlService.grant_ownership`
(`src/services/acl_service.py:63-77`): add the URI to the user's set
(idempotent). Output-file values are URI strings; a non-string value is
left ungranted. -/
def AccessControlService.grant_ownership (acl : List (String × List String))
    (user_id : String) (v : PyVal) : List (String × List String) :=
  match v with
  | PyVal.str s =>
      match acl.find? (fun kv => kv.1 == user_id) with
      | some _ =>
          acl.map fun kv =>
            if kv.1 == user_id then (kv.1, if kv.2.contains s then kv.2 else s :: kv.2)
            else kv
      | none => acl ++ [(user_id, [s])]
  | _ => acl

/-- `check_input_file_permissions` (`src/app/routers/run.py:178-197`):
for each declared `InputFile` parameter present in the inputs, the
caller must be able to read the referenced resource, else a 403 is
raised. Python's string interpolation of the value is abstracted. -/
def check_input_file_permissions (inputs : List (String × PyVal))
    (function_def : FunctionDef) (user_id : String)
    (acl : List (String × List String)) : Option HttpError :=
  function_def.parameters.findSome? fun param =>
    if param.type == "InputFile" then
      match pyDictGet inputs param.name with
      | some v =>
          if AccessControlService.can_read acl user_id v then none
          else some ⟨403, "Permission denied for file"⟩
      | none => none
    else none

/-- One step of `resolve_secrets` over the declared secrets in order
(`src/app/routers/run.py:210-225`): a missing required secret raises a
400; a truthy (nonempty) resolved value is added to the map, a falsy
one is skipped. The vault table is threaded because `get_secret`
updates `last_used_at`. -/
def resolveSecretsGo (c : Cipher) (user_id prefab_id : String) (now : Nat) :
    List SecretDef → List (String × String) → List UserSecret →
    Except HttpError (List (String × String)) × List UserSecret
  | [], acc, db => (Except.ok acc, db)
  | sd :: rest, acc, db =>
    match VaultService.get_secret c user_id prefab_id sd.name now db with
    | (none, db') =>
        if sd.required then
          (Except.error ⟨400, "Secret " ++ sd.name ++ " for prefab " ++ prefab_id ++
            " is not configured"⟩, db')
        else resolveSecretsGo c user_id prefab_id now rest acc db'
    | (some v, db') =>
        if v != "" then resolveSecretsGo c user_id prefab_id now rest (acc ++ [(sd.name, v)]) db'
        else resolveSecretsGo c user_id prefab_id now rest acc db'

/-- `resolve_secrets` (`src/app/routers/run.py:200-227`), with the
database session passed to `get_secret` as its signature requires. -/
def resolve_secrets (c : Cipher) (user_id prefab_id : String) (function_def : FunctionDef)
    (now : Nat) (db : List UserSecret) :
    Except HttpError (List (String × String)) × List UserSecret :=
  resolveSecretsGo c user_id prefab_id now function_def.secrets [] db

/-- The request `invoke_knative_service` posts downstream
(`src/app/routers/run.py:92-105, 230-251`): the URL is derived from the
prefab id (the version does not enter the URL) and the function name,
and the JSON body carries the inputs and the resolved secret map. -/
structure DownstreamRequest where
  prefab_id : String
  version : String
  function_name : String
  inputs : List (String × PyVal)
  secrets : List (String × String)

/-- Behavior of the downstream unit for one request: a JSON response, a
non-success status, a timeout, or another transport failure. -/
inductive DownstreamResult where
  | ok (output : List (String × PyVal))
  | httpStatusError (code : Nat)
  | timeout
  | exn (msg : String)

/-- `invoke_knative_service` (`src/app/routers/run.py:230-270`): any
downstream failure becomes an HTTPException(503) with the matching
detail string. -/
def invoke_knative_service (downstream : DownstreamRequest → DownstreamResult)
    (prefab_id version function_name : String) (inputs : List (String × PyVal))
    (secrets : List (String × String)) : Except HttpError (List (String × PyVal)) :=
  match downstream ⟨prefab_id, version, function_name, inputs, secrets⟩ with
  | DownstreamResult.ok output => Except.ok output
  | DownstreamResult.httpStatusError code =>
      Except.error ⟨503, "Downstream service error: " ++ toString code⟩
  | DownstreamResult.timeout => Except.error ⟨503, "Downstream service timeout"⟩
  | DownstreamResult.exn msg => Except.error ⟨503, "Failed to invoke service: " ++ msg⟩

/-- `handle_output_files` (`src/app/routers/run.py:273-287`): for each
declared `OutputFile` return property present in the output, grant the
caller ownership of the referenced resource. -/
def handle_output_files (acl : List (String × List String)) (user_id : String)
    (output : List (String × PyVal)) (function_def : FunctionDef) :
    List (String × List String) :=
  function_def.returns.foldl
    (fun a field =>
      if field.2 == "OutputFile" then
        match pyDictGet output field.1 with
        | some v => AccessControlService.grant_ownership a user_id v
        | none => a
      else a)
    acl

/-- One call of a run batch (`src/models/requests.py`, `PrefabCall`). -/
structure PrefabCall where
  prefab_id : String
  version : String
  function_name : String
  inputs : List (String × PyVal)

/-- The environment a call executes against: the spec cache, the vault
table, the ACL ledger and the downstream units. -/
structure RunEnv where
  cache : SpecCacheState
  secrets : List UserSecret
  acl : List (String × List String)
  downstream : DownstreamRequest → DownstreamResult

/-- Outcome of one call's pipeline: a JSON output, a raised
HTTPException (recognized error), or any other exception (type name and
message). -/
inductive CallOutcome where
  | ok (output : List (String × PyVal))
  | httpExc (status_code : Nat) (detail : String)
  | exc (ty msg : String)

/-- Steps 1-7 of the per-call pipeline of `run_prefabs`
(`src/app/routers/run.py:55-114`), with the database session passed to
`get_spec` and `get_secret` as their signatures require (and as
`src/app/routers/prefabs.py:98` does). As written, `run.py:57` and
`run.py:214` omit the session — that behavior is
`asWrittenCallPipeline`. -/
def callPipeline (c : Cipher) (user_id : String) (now : Nat) (env : RunEnv)
    (call : PrefabCall) : CallOutcome × RunEnv :=
  match SpecCacheService.get_spec env.cache call.prefab_id call.version now with
  | (none, cache') =>
      (CallOutcome.httpExc 404 ("Prefab " ++ call.prefab_id ++ "@" ++ call.version ++
        " not found"), { env with cache := cache' })
  | (some spec, cache') =>
    let env1 : RunEnv := { env with cache := cache' }
    match spec.functions.find? (fun f => f.name == call.function_name) with
    | none =>
        (CallOutcome.httpExc 404 ("Function " ++ call.function_name ++
          " not found in prefab " ++ call.prefab_id), env1)
    | some function_def =>
      match validate_inputs call.inputs function_def with
      | some err => (CallOutcome.httpExc err.status_code err.detail, env1)
      | none =>
        match check_input_file_permissions call.inputs function_def user_id env1.acl with
        | some err => (CallOutcome.httpExc err.status_code err.detail, env1)
        | none =>
          match resolve_secrets c user_id call.prefab_id function_def now env1.secrets with
          | (Except.error err, secrets') =>
              (CallOutcome.httpExc err.status_code err.detail, { env1 with secrets := secrets' })
          | (Except.ok resolved, secrets') =>
            let env2 : RunEnv := { env1 with secrets := secrets' }
            match invoke_knative_service env2.downstream call.prefab_id call.version
                call.function_name call.inputs resolved with
            | Except.error err => (CallOutcome.httpExc err.status_code err.detail, env2)
            | Except.ok output =>
                (CallOutcome.ok output,
                 { env2 with acl := handle_output_files env2.acl user_id output function_def })

/-- The TypeError text raised by the call at `run.py:57` (the required
positional `db` session is not passed). -/
def missingDbMessage : String :=
  "SpecCacheService.get_spec() missing 1 required positional argument: db"

/-- The per-call pipeline as actually written: `run.py:57` calls
`spec_cache_service.get_spec(call.prefab_id, call.version)` without the
required `db` session, so creating the call raises `TypeError` before
any lookup runs; the generic `except Exception` of the batch loop then
degrades the call, and no state is touched. -/
def asWrittenCallPipeline (env : RunEnv) (_call : PrefabCall) : CallOutcome × RunEnv :=
  (CallOutcome.exc "TypeError" missingDbMessage, env)

/-- `CallStatus` (`src/models/responses.py:9-12`). -/
inductive CallStatus where
  | SUCCESS
  | FAILED
deriving DecidableEq

/-- `CallResult` (`src/models/responses.py:15-34`); `error` carries the
(message, type) pair built at `run.py:125`. -/
structure CallResult where
  status : CallStatus
  output : Option (List (String × PyVal))
  error : Option (String × String)

/-- The success result appended at `run.py:111-114`. -/
def successResult (output : List (String × PyVal)) : CallResult :=
  { status := CallStatus.SUCCESS, output := some output, error := none }

/-- The degraded result appended at `run.py:123-126`. -/
def failedResult (ty msg : String) : CallResult :=
  { status := CallStatus.FAILED, output := none, error := some (msg, ty) }

/-- `RunResponsePayload` (`src/models/responses.py:37-43`). -/
structure RunResponsePayload where
  job_id : String
  status : String
  results : List CallResult

/-- The response assembly of `run_prefabs` (`src/app/routers/run.py:128-135`):
COMPLETED when every call succeeded, else PARTIAL_SUCCESS. -/
def mkRunResponse (request_id : String) (results : List CallResult) : RunResponsePayload :=
  { job_id := request_id,
    status := if results.all (fun r => r.status == CallStatus.SUCCESS) then "COMPLETED"
              else "PARTIAL_SUCCESS",
    results := results }

/-- The batch loop of `run_prefabs` (`src/app/routers/run.py:52-126`),
parametric in the per-call pipeline: an `HTTPException` outcome is
re-raised (`run.py:117-119`), aborting the whole request; any other
exception degrades to a FAILED result and the loop continues. -/
def processCalls (pipe : RunEnv → PrefabCall → CallOutcome × RunEnv) (env : RunEnv) :
    List PrefabCall → Except HttpError (List CallResult × RunEnv)
  | [] => Except.ok ([], env)
  | call :: rest =>
    match pipe env call with
    | (CallOutcome.ok output, env') =>
        match processCalls pipe env' rest with
        | Except.ok (results, envEnd) => Except.ok (successResult output :: results, envEnd)
        | Except.error e => Except.error e
    | (CallOutcome.httpExc code detail, _) => Except.error ⟨code, detail⟩
    | (CallOutcome.exc ty msg, env') =>
        match processCalls pipe env' rest with
        | Except.ok (results, envEnd) => Except.ok (failedResult ty msg :: results, envEnd)
        | Except.error e => Except.error e

/-- `run_prefabs` (`src/app/routers/run.py:31-135`): run the batch loop
and assemble the response; a re-raised HTTPException becomes a
top-level error response instead. -/
def run_prefabs (pipe : RunEnv → PrefabCall → CallOutcome × RunEnv) (env : RunEnv)
    (calls : List PrefabCall) (request_id : String) :
    Except HttpError RunResponsePayload :=
  match processCalls pipe env calls with
  | Except.error e => Except.error e
  | Except.ok (results, _) => Except.ok (mkRunResponse request_id results)

/-- The sequence of per-call outcomes of a batch, in request order. -/
def outcomeTrace (pipe : RunEnv → PrefabCall → CallOutcome × RunEnv) (env : RunEnv) :
    List PrefabCall → List CallOutcome
  | [] => []
  | call :: rest =>
    match pipe env call with
    | (o, env') => o :: outcomeTrace pipe env' rest

/-- The HTTPException carried by a recognized-error outcome. -/
def outcomeHttpExc : CallOutcome → Option HttpError
  | CallOutcome.httpExc code detail => some ⟨code, detail⟩
  | _ => none

/-- First recognized error of a batch, if any. -/
def firstHttpExc (trace : List CallOutcome) : Option HttpError :=
  trace.findSome? outcomeHttpExc

/-- The per-call result recorded for an outcome. The `httpExc` branch is
unreachable in a completed batch (a recognized error aborts instead);
it is given a FAILED value only to make the function total. -/
def resultOfOutcome : CallOutcome → CallResult
  | CallOutcome.ok output => successResult output
  | CallOutcome.exc ty msg => failedResult ty msg
  | CallOutcome.httpExc _ detail => failedResult "HTTPException" detail

/-- Demo Tier-2 row for the published `(weather-api, 1.0.0)` spec. -/
def weatherSpecRec : PrefabSpecRec :=
  { prefab_id := "weather-api", version := "1.0.0", spec_json := demoSpecManifest,
    knative_service_url := none, deployment_status := DeploymentStatus.DEPLOYED,
    artifact_url := none, deployed_at := some 0, updated_at := none,
    call_count := 0, last_called_at := none }

/-- Demo downstream unit: succeeds exactly when it receives the secret
map `API_KEY = sk-test`, so a successful run certifies which secrets
were sent. -/
def demoDownstream : DownstreamRequest → DownstreamResult := fun req =>
  if req.secrets == [("API_KEY", "sk-test")] then
    DownstreamResult.ok [("temperature", PyVal.int 15)]
  else DownstreamResult.httpStatusError 500

/-- Demo environment: the published weather-api spec, the vault after
`store_secret(user-1, weather-api, API_KEY, "sk-test")`, and the
checking downstream. -/
def demoRunEnv : RunEnv :=
  { cache := { tier1 := [], tier2 := [weatherSpecRec] },
    secrets := VaultService.store_secret demoCipher "user-1" "weather-api" "API_KEY"
      "sk-test" none 0 [],
    acl := [],
    downstream := demoDownstream }

/-- Demo environment with no published specs. -/
def emptyRunEnv : RunEnv :=
  { cache := { tier1 := [], tier2 := [] }, secrets := [], acl := [],
    downstream := demoDownstream }

/-- The demo call of the scenario. -/
def demoCall : PrefabCall :=
  { prefab_id := "weather-api", version := "1.0.0",
    function_name := "get_current_weather",
    inputs := [("city", PyVal.str "London")] }

/-- Decryption inverts encryption, including the empty-string short
circuit. -/
theorem encrypt_decrypt_roundtrip (c : Cipher) (v : String) :
    EncryptionService.decrypt c (EncryptionService.encrypt c v) = v := by
  by_cases hv : v = ""
  · subst hv
    simp [EncryptionService.encrypt, EncryptionService.decrypt]
  · simp [EncryptionService.encrypt, EncryptionService.decrypt, hv,
      c.enc_nonempty v, c.dec_enc v]

theorem find_active_map_update (enc' : String) (u p n : String)
    (d : Option String) (now : Nat) :
    ∀ db : List UserSecret, (db.find? (secretKeyMatch u p n)).isSome →
      ∃ rec, ((db.map fun r =>
          if secretKeyMatch u p n r then storeUpdateRow enc' d now r
          else r).find? (activeKeyMatch u p n)) = some rec ∧
        rec.secret_value = enc' := by
  intro db
  induction db with
  | nil => intro h; simp [List.find?] at h
  | cons r rest ih =>
    intro h
    by_cases hr : secretKeyMatch u p n r = true
    · have hkey : secretKeyMatch u p n (storeUpdateRow enc' d now r) = true := by
        simpa [secretKeyMatch, storeUpdateRow] using hr
      have hact : activeKeyMatch u p n (storeUpdateRow enc' d now r) = true := by
        unfold activeKeyMatch
        rw [hkey]
        simp [storeUpdateRow]
      refine ⟨storeUpdateRow enc' d now r, ?_, rfl⟩
      rw [List.map_cons, if_pos hr, List.find?_cons_of_pos _ hact]
    · have hb : ¬ (secretKeyMatch u p n r = true) := hr
      have hact : ¬ (activeKeyMatch u p n r = true) := by
        simp only [activeKeyMatch, Bool.and_eq_true]
        intro hcontra
        exact hb hcontra.1
      have h' : (rest.find? (secretKeyMatch u p n)).isSome := by
        rwa [List.find?_cons_of_neg _ hb] at h
      obtain ⟨rec, hrec, hval⟩ := ih h'
      refine ⟨rec, ?_, hval⟩
      rw [List.map_cons, if_neg hr, List.find?_cons_of_neg _ hact]
      exact hrec

/-- C4: storing a secret and then fetching it for the same
`(user, prefab, name)` key returns exactly the plaintext that was
stored — the encrypt → persist → fetch → decrypt round trip. -/
theorem C4_store_then_get_roundtrip (c : Cipher) (u p n v : String) (d : Option String)
    (now now' : Nat) (db : List UserSecret) :
    (VaultService.get_secret c u p n now'
      (VaultService.store_secret c u p n v d now db)).1 = some v := by
  unfold VaultService.store_secret
  cases hfind : db.find? (secretKeyMatch u p n) with
  | none =>
    have hall : ∀ r ∈ db, ¬ (secretKeyMatch u p n r = true) :=
      fun r hr => by
        have := List.find?_eq_none.mp hfind r hr
        simpa using this
    unfold VaultService.get_secret
    have hnone : (db.find? (activeKeyMatch u p n)) = none := by
      apply List.find?_eq_none.mpr
      intro r hr
      have hb := hall r hr
      simp only [activeKeyMatch, Bool.and_eq_true]
      intro hcontra
      exact hb hcontra.1
    have happ : ((db ++ [newSecretRow u p n (EncryptionService.encrypt c v) d]).find?
          (activeKeyMatch u p n)) =
        some (newSecretRow u p n (EncryptionService.encrypt c v) d) := by
      rw [List.find?_append, hnone]
      simp [List.find?, activeKeyMatch, secretKeyMatch, newSecretRow]
    simp only [happ]
    simp [newSecretRow, encrypt_decrypt_roundtrip]
  | some r0 =>
    have hs : (db.find? (secretKeyMatch u p n)).isSome := by
      rw [hfind]; rfl
    obtain ⟨rec, hrec, hval⟩ :=
      find_active_map_update (EncryptionService.encrypt c v) u p n d now db hs
    unfold VaultService.get_secret
    simp only [hrec, hval]
    simp [encrypt_decrypt_roundtrip]

/-- C4 witness at concrete inputs. -/
theorem C4_store_then_get_roundtrip_witness :
    (VaultService.get_secret demoCipher "user-1" "weather-api" "API_KEY" 1
      (VaultService.store_secret demoCipher "user-1" "weather-api" "API_KEY" "sk-test"
        none 0 [])).1 = some "sk-test" :=
  C4_store_then_get_roundtrip demoCipher "user-1" "weather-api" "API_KEY" "sk-test" none 0 1 []

/-- C5 fails at the empty string: `store_secret` with plaintext `""`
persists `""` itself — the plaintext, not the cipher's output. -/
theorem C5_counterexample :
    VaultService.store_secret demoCipher "user-1" "weather-api" "API_KEY" "" none 0 [] =
      [newSecretRow "user-1" "weather-api" "API_KEY" "" none] ∧
    (newSecretRow "user-1" "weather-api" "API_KEY" "" none).secret_value = "" ∧
    ("" : String) ≠ demoCipher.enc "" :=
  ⟨rfl, rfl, by decide⟩

/-- C5 (amended): for every nonempty plaintext, the value persisted by
`store_secret` in every row for the key is the cipher's output on the
plaintext and is never the plaintext itself; an empty plaintext is
persisted as the empty string, unencrypted. -/
theorem C5_nonempty_plaintext_encrypted (c : Cipher) (u p n v : String) (d : Option String)
    (now : Nat) (db : List UserSecret) (hv : v ≠ "") :
    ∀ r ∈ VaultService.store_secret c u p n v d now db,
      secretKeyMatch u p n r = true → r.secret_value = c.enc v ∧ r.secret_value ≠ v := by
  have henc : EncryptionService.encrypt c v = c.enc v := by
    simp [EncryptionService.encrypt, hv]
  intro r hr hkey
  unfold VaultService.store_secret at hr
  cases hfind : db.find? (secretKeyMatch u p n) with
  | none =>
    rw [hfind] at hr
    simp only [List.mem_append, List.mem_singleton] at hr
    cases hr with
    | inl hin =>
      exact absurd hkey (by simpa using List.find?_eq_none.mp hfind r hin)
    | inr heq =>
      subst heq
      constructor
      · show EncryptionService.encrypt c v = c.enc v
        exact henc
      · show EncryptionService.encrypt c v ≠ v
        rw [henc]
        exact c.enc_ne_self v
  | some r0 =>
    rw [hfind] at hr
    simp only [List.mem_map] at hr
    obtain ⟨r', _, heq⟩ := hr
    by_cases hr' : secretKeyMatch u p n r' = true
    · rw [if_pos hr'] at heq
      subst heq
      constructor
      · show EncryptionService.encrypt c v = c.enc v
        exact henc
      · show EncryptionService.encrypt c v ≠ v
        rw [henc]
        exact c.enc_ne_self v
    · rw [if_neg hr'] at heq
      subst heq
      exact absurd hkey hr'

theorem alistGet_erase (l : List (String × Spec)) (k : String) :
    alistGet (alistErase l k) k = none := by
  unfold alistErase
  induction l with
  | nil => rfl
  | cons kv rest ih =>
    rw [List.filter_cons]
    by_cases h : (kv.1 == k) = true
    · have hne : (kv.1 != k) = false := by
        simp [bne, h]
      rw [hne, if_neg (by simp)]
      exact ih
    · have hb : (kv.1 == k) = false := by
        simpa using h
      have hne : (kv.1 != k) = true := by
        simp [bne, hb]
      rw [hne, if_pos rfl]
      unfold alistGet
      rw [List.find?_cons_of_neg _ (by simp [hb])]
      exact ih

theorem find?_map_ite {α : Type} (p : α → Bool) (f : α → α)
    (hpf : ∀ a, p a = true → p (f a) = true) :
    ∀ l : List α, ((l.map fun a => if p a then f a else a).find? p) = (l.find? p).map f := by
  intro l
  induction l with
  | nil => rfl
  | cons a rest ih =>
    by_cases ha : p a = true
    · rw [List.map_cons, if_pos ha, List.find?_cons_of_pos _ (hpf a ha),
        List.find?_cons_of_pos _ ha]
      rfl
    · rw [List.map_cons, if_neg ha, List.find?_cons_of_neg _ ha,
        List.find?_cons_of_neg _ ha]
      exact ih

/-- C9: a successful deployment-status transition deletes the Tier-1
entry for the `(prefab_id, version)` key — even when one was present
with unexpired TTL — so the next `get_spec` is served from the Tier-2
row, which carries the freshly written status. -/
theorem C9_status_update_invalidates_tier1 (st : SpecCacheState) (p v : String)
    (status : DeploymentStatus) (url : Option String) (now now' : Nat)
    (hok : (SpecCacheService.update_deployment_status st p v status url now).1 = true) :
    alistGet ((SpecCacheService.update_deployment_status st p v status url now).2).tier1
        (SpecCacheService.make_key p v) = none ∧
    ∃ record,
      ((SpecCacheService.update_deployment_status st p v status url now).2).tier2.find?
          (specKeyMatch p v) = some record ∧
      record.deployment_status = status ∧
      (SpecCacheService.get_spec
          ((SpecCacheService.update_deployment_status st p v status url now).2)
          p v now').1 = some record.spec_json := by
  unfold SpecCacheService.update_deployment_status at hok ⊢
  cases hfind : st.tier2.find? (specKeyMatch p v) with
  | none => rw [hfind] at hok; simp at hok
  | some r0 =>
    have hkeep : ∀ r : PrefabSpecRec, specKeyMatch p v r = true →
        specKeyMatch p v (statusUpdateRow status url now r) = true := by
      intro r hr
      simpa [specKeyMatch, statusUpdateRow] using hr
    have ht1 : alistGet (afterStatusUpdate p v status url now st).tier1
        (SpecCacheService.make_key p v) = none := by
      unfold afterStatusUpdate
      exact alistGet_erase _ _
    have ht2 : (afterStatusUpdate p v status url now st).tier2.find? (specKeyMatch p v) =
        some (statusUpdateRow status url now r0) := by
      unfold afterStatusUpdate
      rw [find?_map_ite (specKeyMatch p v) (statusUpdateRow status url now) hkeep, hfind]
      rfl
    refine ⟨ht1, statusUpdateRow status url now r0, ht2, rfl, ?_⟩
    simp [SpecCacheService.get_spec, ht1, ht2]

/-- When the required fields are truthy, the handler reduces to the
idempotency lookup followed by the processing block. -/
theorem receive_eq_of_fields (p : WebhookPayload) (sig raised : Option String) (now : Nat)
    (st : GatewayState)
    (hfields : (truthyOpt p.event_id && truthyOpt p.event_type &&
      truthyOpt p.prefab_id && truthyOpt p.version) = true) :
    receive_factory_webhook p sig raised now st =
      match st.events.find? (fun e => e.event_id == p.event_id.getD "") with
      | some existing =>
          if existing.processed then
            (WebhookResponse.alreadyProcessed (p.event_id.getD ""), st)
          else
            processWebhookEvent (p.event_id.getD "") (p.event_type.getD "")
              (p.prefab_id.getD "") (p.version.getD "") p.knative_service_url raised now st
      | none =>
          processWebhookEvent (p.event_id.getD "") (p.event_type.getD "")
            (p.prefab_id.getD "") (p.version.getD "") p.knative_service_url raised now
            (insertEvent (newWebhookEvent (p.event_id.getD "") (p.event_type.getD "")
              (p.prefab_id.getD "") (p.version.getD "") p sig) st) := by
  unfold receive_factory_webhook
  rw [if_neg (not_not_intro hfields)]

/-- C6: redelivering an event whose row is already `processed = true`
returns `already_processed` and leaves the entire state — in particular
every spec row's `deployment_status` and `deployed_at` — unchanged,
whatever the processing oracle would have done. -/
theorem C6_redelivery_is_noop (p : WebhookPayload) (sig raised : Option String) (now : Nat)
    (st : GatewayState) (ex : WebhookEventRec)
    (hfields : (truthyOpt p.event_id && truthyOpt p.event_type &&
      truthyOpt p.prefab_id && truthyOpt p.version) = true)
    (hfind : st.events.find? (fun e => e.event_id == p.event_id.getD "") = some ex)
    (hproc : ex.processed = true) :
    receive_factory_webhook p sig raised now st =
      (WebhookResponse.alreadyProcessed (p.event_id.getD ""), st) := by
  rw [receive_eq_of_fields p sig raised now st hfields, hfind]
  simp [hproc]

/-- C6 witness: second delivery of the demo event is a no-op even when
the processing oracle would raise. -/
theorem C6_redelivery_is_noop_witness :
    receive_factory_webhook demoPayload none (some "boom") 5 demoWebhookState =
      (WebhookResponse.alreadyProcessed "deploy-123", demoWebhookState) :=
  C6_redelivery_is_noop demoPayload none (some "boom") 5 demoWebhookState
    demoProcessedEvent rfl rfl rfl

/-- C7: when processing raises after the event row exists (or has just
been inserted), the handler records the error text in
`processing_error`, increments `retry_count` by one, leaves
`processed = false` for redelivery-driven retry, and responds with the
500 error — the event is never marked processed on partial completion. -/
theorem C7_processing_exception_leaves_unprocessed (p : WebhookPayload) (sig : Option String)
    (msg : String) (now : Nat) (st : GatewayState)
    (hfields : (truthyOpt p.event_id && truthyOpt p.event_type &&
      truthyOpt p.prefab_id && truthyOpt p.version) = true)
    (hnoproc : ((st.events.find? (fun e => e.event_id == p.event_id.getD "")).all
      fun ex => ex.processed == false) = true) :
    (receive_factory_webhook p sig (some msg) now st).1 =
      WebhookResponse.httpError 500 ("Failed to process webhook: " ++ msg) ∧
    ∃ e', ((receive_factory_webhook p sig (some msg) now st).2).events.find?
        (fun e => e.event_id == p.event_id.getD "") = some e' ∧
      e'.processing_error = some msg ∧
      e'.processed = false ∧
      e'.retry_count =
        ((st.events.find? (fun e => e.event_id == p.event_id.getD "")).elim 0
          fun ex => ex.retry_count) + 1 := by
  cases hfind : st.events.find? (fun e => e.event_id == p.event_id.getD "") with
  | some ex =>
    have hexp : ex.processed = false := by
      rw [hfind] at hnoproc
      simpa using hnoproc
    have hstep : receive_factory_webhook p sig (some msg) now st =
        processWebhookEvent (p.event_id.getD "") (p.event_type.getD "")
          (p.prefab_id.getD "") (p.version.getD "") p.knative_service_url
          (some msg) now st := by
      rw [receive_eq_of_fields p sig (some msg) now st hfields, hfind]
      simp [hexp]
    rw [hstep]
    refine ⟨rfl, eventErrorRow msg ex, ?_, rfl, hexp, ?_⟩
    · show ((st.events.map fun e =>
          if e.event_id == p.event_id.getD "" then eventErrorRow msg e else e).find?
          (fun e => e.event_id == p.event_id.getD "")) = some (eventErrorRow msg ex)
      rw [find?_map_ite (fun e => e.event_id == p.event_id.getD "")
        (eventErrorRow msg) (fun a ha => ha), hfind]
      rfl
    · rfl
  | none =>
    have hstep : receive_factory_webhook p sig (some msg) now st =
        processWebhookEvent (p.event_id.getD "") (p.event_type.getD "")
          (p.prefab_id.getD "") (p.version.getD "") p.knative_service_url
          (some msg) now
          (insertEvent (newWebhookEvent (p.event_id.getD "") (p.event_type.getD "")
            (p.prefab_id.getD "") (p.version.getD "") p sig) st) := by
      rw [receive_eq_of_fields p sig (some msg) now st hfields, hfind]
    rw [hstep]
    refine ⟨rfl, eventErrorRow msg (newWebhookEvent (p.event_id.getD "")
      (p.event_type.getD "") (p.prefab_id.getD "") (p.version.getD "") p sig),
      ?_, rfl, rfl, ?_⟩
    · show (((st.events ++ [newWebhookEvent (p.event_id.getD "") (p.event_type.getD "")
          (p.prefab_id.getD "") (p.version.getD "") p sig]).map fun e =>
          if e.event_id == p.event_id.getD "" then eventErrorRow msg e else e).find?
          (fun e => e.event_id == p.event_id.getD "")) =
        some (eventErrorRow msg (newWebhookEvent (p.event_id.getD "")
          (p.event_type.getD "") (p.prefab_id.getD "") (p.version.getD "") p sig))
      rw [List.map_append, List.find?_append,
        find?_map_ite (fun e => e.event_id == p.event_id.getD "")
          (eventErrorRow msg) (fun a ha => ha), hfind]
      simp [newWebhookEvent, eventErrorRow]
    · rfl

/-- C7 witness at concrete inputs: a second failure bumps the retry
count from 1 to 2 and keeps the event unprocessed. -/
theorem C7_processing_exception_leaves_unprocessed_witness :
    (receive_factory_webhook demoPayload none (some "db still down") 6 demoRetryState).1 =
      WebhookResponse.httpError 500 ("Failed to process webhook: " ++ "db still down") ∧
    ∃ e', ((receive_factory_webhook demoPayload none (some "db still down") 6
        demoRetryState).2).events.find?
        (fun e => e.event_id == demoPayload.event_id.getD "") = some e' ∧
      e'.processing_error = some "db still down" ∧
      e'.processed = false ∧
      e'.retry_count =
        ((demoRetryState.events.find?
          (fun e => e.event_id == demoPayload.event_id.getD "")).elim 0
          fun ex => ex.retry_count) + 1 :=
  C7_processing_exception_leaves_unprocessed demoPayload none "db still down" 6
    demoRetryState rfl rfl

/-- C8 fails on the code: after a first successful processing of the
demo `deployment.success` event, the row is marked `processed = true`
but `processed_at` stays NULL — line 184 of the handler assigns `None`
(its comment expects SQLAlchemy to fill the column, yet the column has
no default and no `onupdate`). -/
theorem C8_processed_at_stays_null :
    (receive_factory_webhook demoPayload none none 7 demoFreshState).1 =
      WebhookResponse.processed "deploy-123" "deployment.success" "weather-api-v1" "1.0.0" ∧
    ((receive_factory_webhook demoPayload none none 7 demoFreshState).2).events.find?
        (fun e => e.event_id == "deploy-123") =
      some (eventMarkProcessed (newWebhookEvent "deploy-123" "deployment.success"
        "weather-api-v1" "1.0.0" demoPayload none)) ∧
    (eventMarkProcessed (newWebhookEvent "deploy-123" "deployment.success"
      "weather-api-v1" "1.0.0" demoPayload none)).processed = true ∧
    (eventMarkProcessed (newWebhookEvent "deploy-123" "deployment.success"
      "weather-api-v1" "1.0.0" demoPayload none)).processed_at = none := by
  refine ⟨rfl, ?_, rfl, rfl⟩
  rfl

/-- C9 witness: a DEPLOYED transition on a state whose Tier-1 still
holds an entry for the key. -/
theorem C9_status_update_invalidates_tier1_witness :
    alistGet ((SpecCacheService.update_deployment_status
        { tier1 := [(SpecCacheService.make_key "weather-api-v1" "1.0.0", demoSpecManifest)],
          tier2 := [demoSpecRec] } "weather-api-v1" "1.0.0" DeploymentStatus.DEPLOYED
        (some "http://weather-api-v1.svc") 3).2).tier1
      (SpecCacheService.make_key "weather-api-v1" "1.0.0") = none ∧
    ∃ record,
      ((SpecCacheService.update_deployment_status
          { tier1 := [(SpecCacheService.make_key "weather-api-v1" "1.0.0", demoSpecManifest)],
            tier2 := [demoSpecRec] } "weather-api-v1" "1.0.0" DeploymentStatus.DEPLOYED
          (some "http://weather-api-v1.svc") 3).2).tier2.find?
          (specKeyMatch "weather-api-v1" "1.0.0") = some record ∧
      record.deployment_status = DeploymentStatus.DEPLOYED ∧
      (SpecCacheService.get_spec
          ((SpecCacheService.update_deployment_status
            { tier1 := [(SpecCacheService.make_key "weather-api-v1" "1.0.0", demoSpecManifest)],
              tier2 := [demoSpecRec] } "weather-api-v1" "1.0.0" DeploymentStatus.DEPLOYED
            (some "http://weather-api-v1.svc") 3).2)
          "weather-api-v1" "1.0.0" 4).1 = some record.spec_json :=
  C9_status_update_invalidates_tier1
    { tier1 := [(SpecCacheService.make_key "weather-api-v1" "1.0.0", demoSpecManifest)],
      tier2 := [demoSpecRec] } "weather-api-v1" "1.0.0" DeploymentStatus.DEPLOYED
    (some "http://weather-api-v1.svc") 3 4 rfl

/-- C10: a structurally valid event whose type is none of the three
deployment types performs no deployment-status update (the cache is
unchanged), yet the event row is marked `processed = true` and the
response is `processed`; redelivering the same event id afterwards
reports `already_processed`. -/
theorem C10_unknown_event_type_marks_processed (p : WebhookPayload)
    (sig sig' raised' : Option String) (now now' : Nat) (st : GatewayState)
    (hfields : (truthyOpt p.event_id && truthyOpt p.event_type &&
      truthyOpt p.prefab_id && truthyOpt p.version) = true)
    (hn1 : p.event_type.getD "" ≠ "deployment.success")
    (hn2 : p.event_type.getD "" ≠ "deployment.failed")
    (hn3 : p.event_type.getD "" ≠ "deployment.started")
    (hnoproc : ((st.events.find? (fun e => e.event_id == p.event_id.getD "")).all
      fun ex => ex.processed == false) = true) :
    (receive_factory_webhook p sig none now st).1 =
      WebhookResponse.processed (p.event_id.getD "") (p.event_type.getD "")
        (p.prefab_id.getD "") (p.version.getD "") ∧
    ((receive_factory_webhook p sig none now st).2).cache = st.cache ∧
    (∃ e', ((receive_factory_webhook p sig none now st).2).events.find?
        (fun e => e.event_id == p.event_id.getD "") = some e' ∧ e'.processed = true) ∧
    (receive_factory_webhook p sig' raised' now'
        (receive_factory_webhook p sig none now st).2).1 =
      WebhookResponse.alreadyProcessed (p.event_id.getD "") := by
  have happly : ∀ cache : SpecCacheState,
      applyDeploymentEvent (p.event_type.getD "") (p.prefab_id.getD "")
        (p.version.getD "") p.knative_service_url now cache = cache := by
    intro cache
    unfold applyDeploymentEvent
    rw [if_neg hn1, if_neg hn2, if_neg hn3]
  cases hfind : st.events.find? (fun e => e.event_id == p.event_id.getD "") with
  | some ex =>
    have hexp : ex.processed = false := by
      rw [hfind] at hnoproc
      simpa using hnoproc
    have hstep : receive_factory_webhook p sig none now st =
        processWebhookEvent (p.event_id.getD "") (p.event_type.getD "")
          (p.prefab_id.getD "") (p.version.getD "") p.knative_service_url
          none now st := by
      rw [receive_eq_of_fields p sig none now st hfields, hfind]
      simp [hexp]
    have hfind' : ((receive_factory_webhook p sig none now st).2).events.find?
        (fun e => e.event_id == p.event_id.getD "") = some (eventMarkProcessed ex) := by
      rw [hstep]
      show ((st.events.map fun e =>
          if e.event_id == p.event_id.getD "" then eventMarkProcessed e else e).find?
          (fun e => e.event_id == p.event_id.getD "")) = some (eventMarkProcessed ex)
      rw [find?_map_ite (fun e => e.event_id == p.event_id.getD "")
        eventMarkProcessed (fun a ha => ha), hfind]
      rfl
    refine ⟨?_, ?_, ⟨eventMarkProcessed ex, hfind', rfl⟩, ?_⟩
    · rw [hstep]
      rfl
    · rw [hstep]
      show applyDeploymentEvent (p.event_type.getD "") (p.prefab_id.getD "")
        (p.version.getD "") p.knative_service_url now st.cache = st.cache
      exact happly st.cache
    · rw [receive_eq_of_fields p sig' raised' now' _ hfields, hfind']
      rfl
  | none =>
    have hstep : receive_factory_webhook p sig none now st =
        processWebhookEvent (p.event_id.getD "") (p.event_type.getD "")
          (p.prefab_id.getD "") (p.version.getD "") p.knative_service_url
          none now
          (insertEvent (newWebhookEvent (p.event_id.getD "") (p.event_type.getD "")
            (p.prefab_id.getD "") (p.version.getD "") p sig) st) := by
      rw [receive_eq_of_fields p sig none now st hfields, hfind]
    have hfind' : ((receive_factory_webhook p sig none now st).2).events.find?
        (fun e => e.event_id == p.event_id.getD "") =
          some (eventMarkProcessed (newWebhookEvent (p.event_id.getD "")
            (p.event_type.getD "") (p.prefab_id.getD "") (p.version.getD "") p sig)) := by
      rw [hstep]
      show (((st.events ++ [newWebhookEvent (p.event_id.getD "") (p.event_type.getD "")
          (p.prefab_id.getD "") (p.version.getD "") p sig]).map fun e =>
          if e.event_id == p.event_id.getD "" then eventMarkProcessed e else e).find?
          (fun e => e.event_id == p.event_id.getD "")) =
        some (eventMarkProcessed (newWebhookEvent (p.event_id.getD "")
          (p.event_type.getD "") (p.prefab_id.getD "") (p.version.getD "") p sig))
      rw [List.map_append, List.find?_append,
        find?_map_ite (fun e => e.event_id == p.event_id.getD "")
          eventMarkProcessed (fun a ha => ha), hfind]
      simp [newWebhookEvent, eventMarkProcessed]
    refine ⟨?_, ?_, ⟨eventMarkProcessed (newWebhookEvent (p.event_id.getD "")
      (p.event_type.getD "") (p.prefab_id.getD "") (p.version.getD "") p sig),
      hfind', rfl⟩, ?_⟩
    · rw [hstep]
      rfl
    · rw [hstep]
      show applyDeploymentEvent (p.event_type.getD "") (p.prefab_id.getD "")
        (p.version.getD "") p.knative_service_url now st.cache = st.cache
      exact happly st.cache
    · rw [receive_eq_of_fields p sig' raised' now' _ hfields, hfind']
      rfl

/-- C10 witness at concrete inputs. -/
theorem C10_unknown_event_type_marks_processed_witness :
    (receive_factory_webhook demoUnknownPayload none none 9 demoFreshState).1 =
      WebhookResponse.processed "evt-9" "deployment.unknown" "weather-api-v1" "1.0.0" ∧
    ((receive_factory_webhook demoUnknownPayload none none 9 demoFreshState).2).cache =
      demoFreshState.cache ∧
    (∃ e', ((receive_factory_webhook demoUnknownPayload none none 9
        demoFreshState).2).events.find?
        (fun e => e.event_id == demoUnknownPayload.event_id.getD "") = some e' ∧
      e'.processed = true) ∧
    (receive_factory_webhook demoUnknownPayload none (some "late failure") 10
        (receive_factory_webhook demoUnknownPayload none none 9 demoFreshState).2).1 =
      WebhookResponse.alreadyProcessed "evt-9" :=
  C10_unknown_event_type_marks_processed demoUnknownPayload none none
    (some "late failure") 9 10 demoFreshState rfl (by decide) (by decide) (by decide) rfl

theorem outcomeTrace_length (pipe : RunEnv → PrefabCall → CallOutcome × RunEnv) :
    ∀ (calls : List PrefabCall) (env : RunEnv),
      (outcomeTrace pipe env calls).length = calls.length := by
  intro calls
  induction calls with
  | nil => intro env; rfl
  | cons call rest ih =>
    intro env
    unfold outcomeTrace
    cases hp : pipe env call with
    | mk o env' => simp [ih env']

theorem processCalls_firstHttpExc_error (pipe : RunEnv → PrefabCall → CallOutcome × RunEnv) :
    ∀ (calls : List PrefabCall) (env : RunEnv) (e : HttpError),
      firstHttpExc (outcomeTrace pipe env calls) = some e →
      processCalls pipe env calls = Except.error e := by
  intro calls
  induction calls with
  | nil => intro env e h; simp [outcomeTrace, firstHttpExc] at h
  | cons call rest ih =>
    intro env e h
    unfold outcomeTrace at h
    unfold processCalls
    cases hp : pipe env call with
    | mk o env' =>
      rw [hp] at h
      cases o with
      | ok output =>
        have h' : firstHttpExc (outcomeTrace pipe env' rest) = some e := by
          simpa [firstHttpExc, outcomeHttpExc] using h
        simp only [ih env' e h']
      | httpExc code detail =>
        have he : (⟨code, detail⟩ : HttpError) = e := by
          simpa [firstHttpExc, outcomeHttpExc] using h
        simp only [← he]
      | exc ty msg =>
        have h' : firstHttpExc (outcomeTrace pipe env' rest) = some e := by
          simpa [firstHttpExc, outcomeHttpExc] using h
        simp only [ih env' e h']

theorem processCalls_no_httpExc_ok (pipe : RunEnv → PrefabCall → CallOutcome × RunEnv) :
    ∀ (calls : List PrefabCall) (env : RunEnv),
      firstHttpExc (outcomeTrace pipe env calls) = none →
      ∃ envEnd, processCalls pipe env calls =
        Except.ok ((outcomeTrace pipe env calls).map resultOfOutcome, envEnd) := by
  intro calls
  induction calls with
  | nil => intro env _; exact ⟨env, rfl⟩
  | cons call rest ih =>
    intro env h
    unfold outcomeTrace at h ⊢
    unfold processCalls
    cases hp : pipe env call with
    | mk o env' =>
      rw [hp] at h
      cases o with
      | ok output =>
        have h' : firstHttpExc (outcomeTrace pipe env' rest) = none := by
          simpa [firstHttpExc, outcomeHttpExc] using h
        obtain ⟨envEnd, hE⟩ := ih env' h'
        refine ⟨envEnd, ?_⟩
        simp only [hE, List.map_cons]
        rfl
      | httpExc code detail =>
        exfalso
        simp [firstHttpExc, outcomeHttpExc] at h
      | exc ty msg =>
        have h' : firstHttpExc (outcomeTrace pipe env' rest) = none := by
          simpa [firstHttpExc, outcomeHttpExc] using h
        obtain ⟨envEnd, hE⟩ := ih env' h'
        refine ⟨envEnd, ?_⟩
        simp only [hE, List.map_cons]
        rfl

/-- C3: whenever the run endpoint returns a batch response, the results
list has exactly one entry per submitted call, index-aligned with
request order (the i-th result is the result of the i-th call's
outcome), and the response carries the request id generated for this
batch as its `job_id`. -/
theorem C3_results_index_aligned (pipe : RunEnv → PrefabCall → CallOutcome × RunEnv)
    (env : RunEnv) (calls : List PrefabCall) (request_id : String)
    (resp : RunResponsePayload)
    (hok : run_prefabs pipe env calls request_id = Except.ok resp) :
    resp.results.length = calls.length ∧
    resp.job_id = request_id ∧
    resp.results = (outcomeTrace pipe env calls).map resultOfOutcome := by
  cases hfirst : firstHttpExc (outcomeTrace pipe env calls) with
  | some e =>
    exfalso
    unfold run_prefabs at hok
    simp only [processCalls_firstHttpExc_error pipe calls env e hfirst] at hok
    exact Except.noConfusion hok
  | none =>
    obtain ⟨envEnd, hE⟩ := processCalls_no_httpExc_ok pipe calls env hfirst
    unfold run_prefabs at hok
    simp only [hE] at hok
    have hresp : resp =
        mkRunResponse request_id ((outcomeTrace pipe env calls).map resultOfOutcome) :=
      (Except.ok.inj hok).symm
    subst hresp
    refine ⟨?_, rfl, rfl⟩
    simp [mkRunResponse, outcomeTrace_length pipe calls env]

/-- C3 witness at concrete inputs. -/
theorem C3_results_index_aligned_witness :
    (mkRunResponse "job-1" [failedResult "TypeError" missingDbMessage]).results.length =
      [demoCall].length ∧
    (mkRunResponse "job-1" [failedResult "TypeError" missingDbMessage]).job_id = "job-1" ∧
    (mkRunResponse "job-1" [failedResult "TypeError" missingDbMessage]).results =
      (outcomeTrace asWrittenCallPipeline demoRunEnv [demoCall]).map resultOfOutcome :=
  C3_results_index_aligned asWrittenCallPipeline demoRunEnv [demoCall] "job-1" _ rfl

/-- C1 fails on the code: a call against an unpublished (unit, version)
raises HTTPException(404) in the pipeline, and the batch loop re-raises
every HTTPException (`run.py:117-119`) — the endpoint answers with a
top-level 404 error response instead of recording
CallResult{FAILED, error} and returning PARTIAL_SUCCESS. -/
theorem C1_counterexample :
    run_prefabs (callPipeline demoCipher "user-1" 0) emptyRunEnv [demoCall] "job-1" =
      Except.error ⟨404, "Prefab weather-api@1.0.0 not found"⟩ := rfl

/-- C1 (amended): a recognized per-call error — an HTTPException raised
by the pipeline (unknown unit/version or function, validation failure,
denied InputFile permission, missing required secret, downstream
failure/timeout) — is re-raised by the batch loop, aborting the whole
batch with a top-level error carrying the first such error and
returning no per-call results; only unrecognized exceptions degrade to
CallResult{FAILED, error} with processing continuing, and a batch
containing such a degraded call returns PARTIAL_SUCCESS. -/
theorem C1_recognized_error_aborts_batch (pipe : RunEnv → PrefabCall → CallOutcome × RunEnv)
    (env : RunEnv) (calls : List PrefabCall) (request_id : String) :
    (∀ e, firstHttpExc (outcomeTrace pipe env calls) = some e →
      run_prefabs pipe env calls request_id = Except.error e) ∧
    (firstHttpExc (outcomeTrace pipe env calls) = none →
      ∃ resp, run_prefabs pipe env calls request_id = Except.ok resp ∧
        resp.results = (outcomeTrace pipe env calls).map resultOfOutcome ∧
        (∀ ty msg, CallOutcome.exc ty msg ∈ outcomeTrace pipe env calls →
          resp.status = "PARTIAL_SUCCESS")) := by
  constructor
  · intro e he
    unfold run_prefabs
    simp only [processCalls_firstHttpExc_error pipe calls env e he]
  · intro hnone
    obtain ⟨envEnd, hE⟩ := processCalls_no_httpExc_ok pipe calls env hnone
    refine ⟨mkRunResponse request_id ((outcomeTrace pipe env calls).map resultOfOutcome),
      ?_, rfl, ?_⟩
    · unfold run_prefabs
      simp only [hE]
    · intro ty msg hmem
      have hall : ((outcomeTrace pipe env calls).map resultOfOutcome).all
          (fun r => r.status == CallStatus.SUCCESS) = false := by
        refine Bool.eq_false_iff.mpr ?_
        intro hcontra
        have hmem2 := List.all_eq_true.mp hcontra
          (resultOfOutcome (CallOutcome.exc ty msg))
          (List.mem_map_of_mem resultOfOutcome hmem)
        simp [resultOfOutcome, failedResult] at hmem2
      simp [mkRunResponse, hall]

/-- C1 witness: the abort branch at concrete inputs. -/
theorem C1_recognized_error_aborts_batch_witness :
    run_prefabs (callPipeline demoCipher "user-1" 0) emptyRunEnv [demoCall] "job-404" =
      Except.error ⟨404, "Prefab weather-api@1.0.0 not found"⟩ :=
  (C1_recognized_error_aborts_batch (callPipeline demoCipher "user-1" 0) emptyRunEnv
    [demoCall] "job-404").1 ⟨404, "Prefab weather-api@1.0.0 not found"⟩ rfl

/-- C2: the scenario — store API_KEY="sk-test" for (user-1, weather-api),
then run the demo call. First conjunct: as written, `run.py:57` omits
the required `db` session of `get_spec`, so every call raises TypeError
and degrades to FAILED with overall PARTIAL_SUCCESS — the claimed
SUCCESS is unreachable. Remaining conjuncts: with the session passed as
the signatures require, `resolve_secrets` yields exactly
API_KEY="sk-test", and the run succeeds against a downstream that
verifies it receives exactly that secret map alongside the inputs. -/
theorem C2_secret_roundtrip_run :
    run_prefabs asWrittenCallPipeline demoRunEnv [demoCall] "job-1" =
      Except.ok (mkRunResponse "job-1" [failedResult "TypeError" missingDbMessage]) ∧
    (resolve_secrets demoCipher "user-1" "weather-api" demoFunctionDef 1
      demoRunEnv.secrets).1 = Except.ok [("API_KEY", "sk-test")] ∧
    run_prefabs (callPipeline demoCipher "user-1" 1) demoRunEnv [demoCall] "job-1" =
      Except.ok (mkRunResponse "job-1" [successResult [("temperature", PyVal.int 15)]]) :=
  ⟨rfl, rfl, rfl⟩

/-- C5 (amended) witness at concrete inputs. -/
theorem C5_nonempty_plaintext_encrypted_witness :
    (newSecretRow "user-1" "weather-api" "API_KEY" (demoCipher.enc "sk-test")
      none).secret_value = demoCipher.enc "sk-test" ∧
    (newSecretRow "user-1" "weather-api" "API_KEY" (demoCipher.enc "sk-test")
      none).secret_value ≠ "sk-test" :=
  C5_nonempty_plaintext_encrypted demoCipher "user-1" "weather-api" "API_KEY" "sk-test"
    none 0 [] (by decide)
    (newSecretRow "user-1" "weather-api" "API_KEY" (demoCipher.enc "sk-test") none)
    (by decide) (by decide)
